import Mathlib

set_option synthInstance.maxSize 2048
set_option linter.unusedVariables false

/-
Verification of `chainercv/visualizations/vis_label.py`.

The module is a single function `vis_label(label, label_names, colors,
ignore_color, alpha, ax)` that is meant to colorize a 2-D integer label grid
and build a legend.  The embedding below translates the function line by
line:

* integers stay integers (`ℤ`); Python/numpy true division of integers is
  exact, so rationals (`ℚ`) model the float values that appear;
* numpy's element-wise true division by zero yields IEEE special values
  (0/0 = nan, k/0 = ±inf) instead of raising; the type `ExtF` and `extDiv`
  capture this;
* matplotlib colormaps return RGBA values: `Colormap.__call__` looks colors
  up in a lut of shape (N+3, 4), so the line-86 image has a trailing axis of
  length 4.  User colors and `ignore_color` are RGB triples in [0, 255];
  `ListedColormap` stores them (after the source's /255 normalisation) with
  alpha 1, and the bad color (returned for nan) is (0, 0, 0, 0);
* line 90, `img[label < 0] = ignore_color`, assigns the length-3 array
  `np.array(ignore_color)/255` into the masked indexing result of shape
  (k, 4).  numpy broadcasting requires the value's trailing dimension to be
  4 or 1; 3 is neither, and the shape check precedes any writing, so the
  assignment raises ValueError for every grid — even one with no negative
  pixel.  Consequently `visImage` never succeeds (empty grids already raise
  at `label.max()`), and the drawing and legend code of lines 92-103 is dead:
  it is transcribed below (`drawOn`, `visLegend`, the tail of `vis_label`)
  but provably never reached;
* matplotlib's drawing state is a `World`: a list of axes (each recording the
  images drawn onto it) plus a heap of label arrays, so that frame conditions
  (what a call mutates — here: nothing) are statable.
-/

namespace VisLabel

/-- RGB color with rational channels: the form of the user-supplied `colors`
entries and of `ignore_color` (values in [0, 255] before normalisation). -/
abbrev Color : Type := ℚ × ℚ × ℚ

/-- RGBA color: what matplotlib colormaps return (`Colormap.__call__` reads a
lut of shape (N+3, 4)), and hence the pixel type of the line-86 image. -/
abbrev RGBA : Type := ℚ × ℚ × ℚ × ℚ

/-- The label grid: a 2-D array of integers, row major. -/
abbrev Grid : Type := List (List ℤ)

/-- An image produced by a colormap: one RGBA value per pixel. -/
abbrev Image : Type := List (List RGBA)

/-- Value of a float expression produced by dividing integers: either a
finite rational or one of the IEEE special values that numpy true division
by zero produces. -/
inductive ExtF : Type where
  | fin (q : ℚ)
  | nan
  | posInf
  | negInf
deriving DecidableEq

/-- numpy element-wise true division of integers, as in
`label / (n_class - 1)` on line 86: exact division for a nonzero divisor,
and for a zero divisor the IEEE values nan (0/0), +inf (positive/0),
-inf (negative/0) — numpy warns but does not raise. -/
def extDiv (v d : ℤ) : ExtF :=
  if d = 0 then
    if 0 < v then .posInf else if v < 0 then .negInf else .nan
  else .fin ((v : ℚ) / (d : ℚ))

/-- The exceptions of this program.  The two `ValueError` objects constructed
on lines 71-74 are never raised (there is no `raise` statement) and do not
appear here.  What is actually raised: numpy's `ValueError` when `label.max()`
is taken of an empty array (line 68 or 73), and numpy's broadcast
`ValueError` at line 90 (RGB value into RGBA indexing result) on every call
that gets past `label.max()`.  `zeroDivisionError` is what the plain-int
division of the legend loop (line 100) would raise for `n_class = 1`; that
loop is dead code in this program, the line-90 error preempting it. -/
inductive PyErr : Type where
  | valueErrorEmptyMax
  | valueErrorBroadcast
  | zeroDivisionError
deriving DecidableEq

/-- Normalisation `[0, 255] -> [0, 1]` applied to a user color (lines 83-84)
and to `ignore_color` (line 89). -/
def normColor (c : Color) : Color := (c.1 / 255, c.2.1 / 255, c.2.2 / 255)

/-- An RGB entry of a `ListedColormap` lut: matplotlib's `to_rgba` gives it
alpha 1. -/
def withAlpha (c : Color) : RGBA := (c.1, c.2.1, c.2.2, 1)

/-- matplotlib's default bad color `(0, 0, 0, 0)`, returned by a colormap for
a nan input. -/
def badColor : RGBA := (0, 0, 0, 0)

/-- matplotlib `ListedColormap` applied to a float `x` (a numpy scalar or
array element), over its lut: the lookup index is `int(x * N)` truncated,
with `x * N = N` mapped to `N - 1`; under-range inputs (negative, -inf) get
the under color, which defaults to the first entry; over-range inputs
(`x * N > N`, +inf) get the over color, which defaults to the last entry;
nan gets the bad color. -/
def listedCmap (lut : List RGBA) (x : ExtF) : RGBA :=
  match x with
  | .nan => badColor
  | .negInf => lut.headD badColor
  | .posInf => lut.getLastD badColor
  | .fin q =>
    let y : ℚ := q * (lut.length : ℚ)
    if y < 0 then lut.headD badColor
    else if (lut.length : ℚ) ≤ y then lut.getLastD badColor
    else lut.getD (⌊y⌋).toNat badColor

/-- `label.max()` (lines 68, 73, 77): the maximum entry of the grid, or none
when the grid has no element, in which case numpy raises `ValueError`. -/
def gridMax (label : Grid) : Option ℤ := label.flatten.max?

/-- `n_class` (lines 64-69): the length of `label_names` when given, else the
length of `colors` when given, else `label.max()` (which fails on an empty
grid). -/
def nClassOf (label_names : Option (List String)) (colors : Option (List Color))
    (label : Grid) : Option ℤ :=
  match label_names with
  | some ns => some (ns.length : ℤ)
  | none =>
    match colors with
    | some cs => some (cs.length : ℤ)
    | none => gridMax label

/-- Line 71 condition: the source constructs (but does not raise) a
`ValueError` about the size of `colors` exactly when `colors` is given and
its length differs from `n_class`. -/
def invalidColorCount (label_names : Option (List String))
    (colors : Option (List Color)) (label : Grid) : Bool :=
  match colors, nClassOf label_names colors label with
  | some cs, some n => (cs.length : ℤ) != n
  | _, _ => false

/-- Line 73 condition: the source constructs (but does not raise) a
`ValueError` about label values exactly when `label.max() >= n_class`. -/
def outOfRangeClass (label_names : Option (List String))
    (colors : Option (List Color)) (label : Grid) : Bool :=
  match gridMax label, nClassOf label_names colors label with
  | some m, some n => n ≤ m
  | _, _ => false

/-- Lines 76-77: `label_names`, defaulted to the decimal strings of
`0 .. label.max()` when absent.  Only evaluated after line 73 has already
taken `label.max()` successfully, so the `getD` default is unreachable. -/
def resolvedNames (label_names : Option (List String)) (label : Grid) :
    List String :=
  match label_names with
  | some ns => ns
  | none => (List.range ((gridMax label).getD 0 + 1).toNat).map toString

/-- Lines 79-84: the colormap — the default continuous colormap when
`colors` is absent, else a `ListedColormap` whose lut holds the
`/255`-normalised colors with alpha 1. -/
def resolvedCmap (colors : Option (List Color)) (defaultCmap : ExtF → RGBA) :
    ExtF → RGBA :=
  match colors with
  | none => defaultCmap
  | some cs => listedCmap ((cs.map normColor).map withAlpha)

/-- Line 86: `img = cmap(label / (n_class - 1))`, element-wise over the
grid (`n1` is `n_class - 1`).  This RGBA array is computed, but the call
raises at line 90 before it is ever drawn or returned. -/
def colorize (cmap : ExtF → RGBA) (n1 : ℤ) (label : Grid) : Image :=
  label.map (fun row => row.map (fun v => cmap (extDiv v n1)))

/-- Trailing dimension of a colormap output: RGBA. -/
def rgbaWidth : ℕ := 4

/-- Length of `np.array(ignore_color)`: an RGB triple. -/
def rgbLen : ℕ := 3

/-- Line 90, `img[label < 0] = ignore_color`: numpy must broadcast the
length-`rgbLen` value into the masked indexing result of shape
(k, `rgbaWidth`), which requires the value's trailing dimension to equal
`rgbaWidth` or to be 1.  3 is neither, and the shape check happens before any
element is written, so the assignment raises `ValueError` for every grid —
even one whose mask selects no pixel.  The success branch is statically
impossible (hence `absurd`): no pixel is ever overwritten with the ignore
color. -/
def ignoreAssign (label : Grid) (img : Image) (ign : Color) :
    Except PyErr Image :=
  if h : rgbLen = rgbaWidth ∨ rgbLen = 1 then absurd h (by decide)
  else .error .valueErrorBroadcast

/-- Lines 64-90: compute `n_class`, evaluate (and drop) the two unraised
error conditions of lines 71-74, build the line-86 RGBA image, then attempt
the line-90 ignore-color assignment.  The outcome is always an exception:
`ValueError` from `label.max()` on an empty grid (line 68 or 73), else the
line-90 broadcast `ValueError`.  No image is ever produced. -/
def visImage (label : Grid) (label_names : Option (List String))
    (colors : Option (List Color)) (ignore_color : Color)
    (defaultCmap : ExtF → RGBA) : Except PyErr Image :=
  match nClassOf label_names colors label with
  | none => .error .valueErrorEmptyMax
  | some n =>
    match gridMax label with
    | none => .error .valueErrorEmptyMax
    | some _ =>
      ignoreAssign label
        (colorize (resolvedCmap colors defaultCmap) (n - 1) label)
        ignore_color

/-- Lines 98-101 (dead code — the line-90 error always precedes it): the
legend loop, one `Patch(color=cmap(l / (n_class - 1)), label=name)` per
element of the resolved `label_names`, in order.  `l` is a plain Python int,
so were the loop reached with `n_class - 1 = 0`, `n_class` a plain int
(`plainInt`, i.e. from a `len`) and at least one name, its first iteration
would raise `ZeroDivisionError`. -/
def visLegend (names : List String) (cmap : ExtF → RGBA) (n : ℤ)
    (plainInt : Bool) : Except PyErr (List (RGBA × String)) :=
  if n - 1 = 0 ∧ plainInt ∧ names ≠ [] then .error .zeroDivisionError
  else .ok (names.enum.map (fun p => (cmap (extDiv (p.1 : ℤ) (n - 1)), p.2)))

/-- A drawing surface (a matplotlib axis): the images drawn onto it, in
drawing order. -/
structure Ax : Type where
  drawn : List Image
deriving DecidableEq

/-- The observable matplotlib/numpy state: the existing axes and the heap of
label arrays (so that non-mutation of the input grid is statable). -/
structure World : Type where
  axes : List Ax
  arrays : List Grid
deriving DecidableEq

/-- Lines 92-96 (dead code): when no axis was supplied, create a fresh one
(appended to the world's axes, `fig.add_subplot`); then draw the image onto
the target axis (`ax.imshow(img)`).  Returns the new world and the index of
the target axis. -/
def drawOn (st : World) (img : Image) (ax : Option ℕ) : World × ℕ :=
  match ax with
  | none => (⟨st.axes ++ [⟨[img]⟩], st.arrays⟩, st.axes.length)
  | some i =>
    (⟨st.axes.set i ⟨(st.axes.getD i ⟨[]⟩).drawn ++ [img]⟩, st.arrays⟩, i)

/-- The whole of `vis_label`: read the label grid from the heap and run
lines 64-90 (`visImage`).  The remainder — axis creation, `ax.imshow`, the
legend loop, the normal return of lines 92-103 — is transcribed in the `.ok`
branch, but that branch is dead: `visImage` always raises, so every call
returns the unchanged world together with the exception.  `alpha` is
accepted and never used, exactly as in the source. -/
def vis_label (st : World) (labelId : ℕ) (label_names : Option (List String))
    (colors : Option (List Color)) (ignore_color : Color) (alpha : ℚ)
    (ax : Option ℕ) (defaultCmap : ExtF → RGBA) :
    World × Except PyErr (ℕ × List (RGBA × String)) :=
  let label := st.arrays.getD labelId []
  match visImage label label_names colors ignore_color defaultCmap with
  | .error e => (st, .error e)
  | .ok img =>
    let stAx : World × ℕ := drawOn st img ax
    match visLegend (resolvedNames label_names label)
        (resolvedCmap colors defaultCmap)
        ((nClassOf label_names colors label).getD 0)
        (label_names.isSome || colors.isSome) with
    | .error e => (stAx.1, .error e)
    | .ok legend => (stAx.1, .ok (stAx.2, legend))

/-- Equality of `Except` results is decidable when both components are. -/
instance {ε : Type u_1} {α : Type u_2} [DecidableEq ε] [DecidableEq α] :
    DecidableEq (Except ε α) := fun a b =>
  match a, b with
  | .ok x, .ok y => decidable_of_iff (x = y) (by simp)
  | .error e, .error f => decidable_of_iff (e = f) (by simp)
  | .ok _, .error _ => .isFalse (fun h => Except.noConfusion h)
  | .error _, .ok _ => .isFalse (fun h => Except.noConfusion h)

/-! ### General lemmas about the embedding -/

/-- The line-90 assignment always raises the broadcast `ValueError`. -/
theorem ignoreAssign_eq (label : Grid) (img : Image) (ign : Color) :
    ignoreAssign label img ign = .error .valueErrorBroadcast := by
  unfold ignoreAssign
  rw [dif_neg (by decide)]

/-- Pixel access in the line-86 array, in terms of the label value there. -/
theorem colorize_pixel (cmap : ExtF → RGBA) (n1 : ℤ) (label : Grid)
    (i j : ℕ) (v : ℤ)
    (hi : i < label.length) (hj : j < (label.getD i []).length)
    (hv : (label.getD i []).getD j 0 = v) :
    ((colorize cmap n1 label).getD i []).getD j badColor
      = cmap (extDiv v n1) := by
  subst hv
  unfold colorize
  rw [List.getD_eq_getElem label [] hi] at hj ⊢
  rw [List.getD_eq_getElem _ [] (by simpa using hi), List.getElem_map,
    List.getD_eq_getElem _ badColor (by simpa using hj), List.getElem_map,
    List.getD_eq_getElem _ 0 hj]

/-- Every run of lines 64-90 raises: `ValueError` from `label.max()` when
the grid is empty, else the line-90 broadcast `ValueError`. -/
theorem visImage_eq (label : Grid) (label_names : Option (List String))
    (colors : Option (List Color)) (ign : Color) (dflt : ExtF → RGBA) :
    visImage label label_names colors ign dflt
      = .error (match gridMax label with
          | some _ => PyErr.valueErrorBroadcast
          | none => PyErr.valueErrorEmptyMax) := by
  unfold visImage
  cases hm : gridMax label with
  | none =>
    cases label_names with
    | some ns => simp [nClassOf, hm]
    | none =>
      cases colors with
      | some cs => simp [nClassOf, hm]
      | none => simp [nClassOf, hm]
  | some m =>
    cases label_names with
    | some ns => simp [nClassOf, hm, ignoreAssign_eq]
    | none =>
      cases colors with
      | some cs => simp [nClassOf, hm, ignoreAssign_eq]
      | none => simp [nClassOf, hm, ignoreAssign_eq]

/-- Every call to `vis_label` returns the world unchanged together with the
exception of lines 64-90; nothing is ever drawn and no legend is ever
built. -/
theorem vis_label_eq (st : World) (labelId : ℕ)
    (label_names : Option (List String)) (colors : Option (List Color))
    (ign : Color) (alpha : ℚ) (ax : Option ℕ) (dflt : ExtF → RGBA) :
    vis_label st labelId label_names colors ign alpha ax dflt
      = (st, .error (match gridMax (st.arrays.getD labelId []) with
          | some _ => PyErr.valueErrorBroadcast
          | none => PyErr.valueErrorEmptyMax)) := by
  simp only [vis_label, visImage_eq]

/-! ### Claim theorems -/

/-- C1: the spec says a colors/n_class length mismatch signals
InvalidColorCount, an out-of-range label value signals OutOfRangeClass, and
either error terminates the call before any drawing.  In the source the two
ValueError objects are constructed but never raised (lines 71-74 contain no
raise statement), so neither condition is ever signaled: at inputs where each
condition holds the call runs on past the validation and then raises the
unrelated line-90 broadcast ValueError — exactly the same failure it
produces at an input where neither condition holds. -/
theorem c1_validation_never_raises :
    invalidColorCount (some ["a", "b"])
        (some [(0,0,0), (10,10,10), (20,20,20)]) [[0]] = true
    ∧ vis_label ⟨[⟨[]⟩], [[[0]]]⟩ 0 (some ["a", "b"])
        (some [(0,0,0), (10,10,10), (20,20,20)]) (0,0,0) 1 (some 0)
        (fun _ => (0,0,0,0))
      = (⟨[⟨[]⟩], [[[0]]]⟩, .error .valueErrorBroadcast)
    ∧ outOfRangeClass (some ["a", "b"]) none [[5]] = true
    ∧ vis_label ⟨[⟨[]⟩], [[[5]]]⟩ 0 (some ["a", "b"]) none (0,0,0) 1
        (some 0) (fun _ => (0,0,0,0))
      = (⟨[⟨[]⟩], [[[5]]]⟩, .error .valueErrorBroadcast)
    ∧ invalidColorCount (some ["a", "b"]) (some [(0,0,0), (10,10,10)]) [[0]]
        = false
    ∧ outOfRangeClass (some ["a", "b"]) (some [(0,0,0), (10,10,10)]) [[0]]
        = false
    ∧ vis_label ⟨[⟨[]⟩], [[[0]]]⟩ 0 (some ["a", "b"])
        (some [(0,0,0), (10,10,10)]) (0,0,0) 1 (some 0) (fun _ => (0,0,0,0))
      = (⟨[⟨[]⟩], [[[0]]]⟩, .error .valueErrorBroadcast) := by
  with_unfolding_all decide

/-- C2 counterexample: with colors = [(255, 0, 0)], so n_class = 1, and
label [[0]], pixel (0, 0) carries the non-negative value 0 < n_class, but the
color written into the line-86 array — the only image the call ever
computes — is the bad color (0,0,0,0) reached through the nan index 0/0, not
palette(0) = (1, 0, 0, 1); and the call then raises the line-90 broadcast
ValueError, so not even that array is returned. -/
theorem c2_counterexample :
    nClassOf none (some [(255,0,0)]) [[0]] = some 1
    ∧ colorize (resolvedCmap (some [(255,0,0)]) (fun _ => (0,0,0,0)))
        (1 - 1) [[0]] = [[(0,0,0,0)]]
    ∧ resolvedCmap (some [(255,0,0)]) (fun _ => (0,0,0,0)) (.fin 0)
        = (1, 0, 0, 1)
    ∧ ((0,0,0,0) : RGBA) ≠ (1, 0, 0, 1)
    ∧ visImage [[0]] none (some [(255,0,0)]) (0,0,0) (fun _ => (0,0,0,0))
        = .error .valueErrorBroadcast := by
  with_unfolding_all decide

/-- C2 (amended): the only image the call computes is the transient line-86
array; its pixel for a non-negative value v < n_class is the palette applied
to the IEEE quotient of v by (n_class - 1) — palette(v / (n_class - 1)) for
n_class ≥ 2, and for n_class = 1 the quotient 0/0 is nan, so the palette's
bad color, not palette(0).  The call then raises ValueError at line 90
before this array is drawn or returned. -/
theorem c2_amended (label : Grid) (label_names : Option (List String))
    (colors : Option (List Color)) (ignore_color : Color)
    (defaultCmap : ExtF → RGBA) (n : ℤ) (i j : ℕ) (v : ℤ)
    (hn : nClassOf label_names colors label = some n)
    (hi : i < label.length) (hj : j < (label.getD i []).length)
    (hv : (label.getD i []).getD j 0 = v) (h0 : 0 ≤ v) (hvn : v < n) :
    ((colorize (resolvedCmap colors defaultCmap) (n - 1) label).getD i
        []).getD j badColor
      = resolvedCmap colors defaultCmap (extDiv v (n - 1))
    ∧ (2 ≤ n → extDiv v (n - 1) = .fin ((v : ℚ) / ((n : ℚ) - 1)))
    ∧ (n = 1 → extDiv v (n - 1) = .nan)
    ∧ ∃ e, visImage label label_names colors ignore_color defaultCmap
        = .error e := by
  refine ⟨colorize_pixel _ _ _ _ _ v hi hj hv, ?_, ?_, ?_⟩
  · intro h2
    have hd : (n : ℤ) - 1 ≠ 0 := by omega
    unfold extDiv
    rw [if_neg hd]
    have hc : ((n - 1 : ℤ) : ℚ) = (n : ℚ) - 1 := by push_cast; ring
    rw [hc]
  · intro h1
    subst h1
    have hv0 : v = 0 := by omega
    subst hv0
    rfl
  · exact ⟨_, visImage_eq label label_names colors ignore_color defaultCmap⟩

/-- C2 witness: a concrete instantiation of the amended claim, with
label [[1]], three class names and the constant default colormap. -/
theorem c2_amended_witness :
    ((colorize (resolvedCmap none (fun _ => (0,0,0,0))) (3 - 1)
        [[1]]).getD 0 []).getD 0 badColor
      = resolvedCmap none (fun _ => (0,0,0,0)) (extDiv 1 (3 - 1))
    ∧ (2 ≤ (3 : ℤ) → extDiv 1 (3 - 1)
        = .fin (((1 : ℤ) : ℚ) / (((3 : ℤ) : ℚ) - 1)))
    ∧ ((3 : ℤ) = 1 → extDiv 1 (3 - 1) = .nan)
    ∧ ∃ e, visImage [[1]] (some ["a", "b", "c"]) none (0, 0, 0)
        (fun _ => (0,0,0,0)) = .error e :=
  c2_amended [[1]] (some ["a", "b", "c"]) none (0, 0, 0)
    (fun _ => (0,0,0,0)) 3 0 0 1 (by with_unfolding_all decide)
    (by decide) (by decide) (by decide) (by decide) (by decide)

/-- C3: the claim says every pixel with a negative label value receives the
normalised ignore_color.  The line that would do that, line 90, is exactly
the line that raises: the length-3 normalised ignore color cannot broadcast
into the RGBA (k, 4) indexing result, numpy raises ValueError, and no pixel
ever receives the ignore color — the call below, with a negative pixel and
ignore_color (10, 20, 30), raises and returns no image, with the drawing
state untouched. -/
theorem c3_ignore_color_never_applied :
    visImage [[-1, 0]] (some ["a", "b"]) none (10, 20, 30)
        (fun _ => (0,0,0,0)) = .error .valueErrorBroadcast
    ∧ vis_label ⟨[⟨[]⟩], [[[-1, 0]]]⟩ 0 (some ["a", "b"]) none (10, 20, 30)
        1 (some 0) (fun _ => (0,0,0,0))
      = (⟨[⟨[]⟩], [[[-1, 0]]]⟩, .error .valueErrorBroadcast) := by
  with_unfolding_all decide

/-- C4 counterexample: a call with n_class = 3 (three colors, label_names
absent) raises the line-90 broadcast ValueError: no legend — in particular no
legend with one entry per class index 0..2 — is returned. -/
theorem c4_counterexample :
    nClassOf none (some [(0,0,0), (51,51,51), (102,102,102)]) [[0]] = some 3
    ∧ vis_label ⟨[⟨[]⟩], [[[0]]]⟩ 0 none
        (some [(0,0,0), (51,51,51), (102,102,102)]) (0,0,0) 1 (some 0)
        (fun _ => (0,0,0,0))
      = (⟨[⟨[]⟩], [[[0]]]⟩, .error .valueErrorBroadcast) := by
  with_unfolding_all decide

/-- C4 (amended): no call returns a legend.  Every call to vis_label raises
ValueError before the legend loop — at label.max() for an empty grid, else
at the line-90 broadcast — and returns the world unchanged; the legend
construction of lines 98-101 is dead code. -/
theorem c4_amended (st : World) (labelId : ℕ)
    (label_names : Option (List String)) (colors : Option (List Color))
    (ignore_color : Color) (alpha : ℚ) (ax : Option ℕ)
    (defaultCmap : ExtF → RGBA) :
    ∃ e, vis_label st labelId label_names colors ignore_color alpha ax
        defaultCmap = (st, .error e) :=
  ⟨_, vis_label_eq st labelId label_names colors ignore_color alpha ax
      defaultCmap⟩

/-- C5 counterexample: colors = [(255,0,0), (0,255,0)] has exactly
n_class = 2 entries, yet the call raises the line-90 broadcast ValueError:
no legend colors are returned at all, so they do not equal the normalised
supplied triples. -/
theorem c5_counterexample :
    nClassOf none (some [(255,0,0), (0,255,0)]) [[0]] = some 2
    ∧ vis_label ⟨[⟨[]⟩], [[[0]]]⟩ 0 none (some [(255,0,0), (0,255,0)])
        (0,0,0) 1 (some 0) (fun _ => (0,0,0,0))
      = (⟨[⟨[]⟩], [[[0]]]⟩, .error .valueErrorBroadcast) := by
  with_unfolding_all decide

/-- C5 (amended): for every call where colors is supplied with exactly
n_class triples, the call raises ValueError before the legend loop (line-90
broadcast, or label.max() on an empty grid), so no legend colors are
returned and no round-trip occurs. -/
theorem c5_amended (st : World) (labelId : ℕ)
    (label_names : Option (List String)) (cs : List Color)
    (ignore_color : Color) (alpha : ℚ) (ax : Option ℕ)
    (defaultCmap : ExtF → RGBA)
    (hn : nClassOf label_names (some cs) (st.arrays.getD labelId [])
        = some (cs.length : ℤ)) :
    ∃ e, vis_label st labelId label_names (some cs) ignore_color alpha ax
        defaultCmap = (st, .error e) :=
  ⟨_, vis_label_eq st labelId label_names (some cs) ignore_color alpha ax
      defaultCmap⟩

/-- C5 witness: the amended claim at a concrete input where colors has
exactly n_class = 2 entries. -/
theorem c5_amended_witness :
    ∃ e, vis_label ⟨[⟨[]⟩], [[[1]]]⟩ 0 none (some [(255,0,0), (0,255,0)])
        (0,0,0) 1 (some 0) (fun _ => (0,0,0,0))
      = (⟨[⟨[]⟩], [[[1]]]⟩, .error e) :=
  c5_amended ⟨[⟨[]⟩], [[[1]]]⟩ 0 none [(255,0,0), (0,255,0)] (0,0,0) 1
    (some 0) (fun _ => (0,0,0,0)) (by with_unfolding_all decide)

/-- C6 counterexample: with label_names = ["a"] (length 1) the call raises
the line-90 broadcast ValueError before the legend loop: no legend with one
entry carrying "a" is returned. -/
theorem c6_counterexample :
    vis_label ⟨[⟨[]⟩], [[[0]]]⟩ 0 (some ["a"]) none (0,0,0) 1 (some 0)
        (fun _ => (0,0,0,0))
      = (⟨[⟨[]⟩], [[[0]]]⟩, .error .valueErrorBroadcast) := by
  with_unfolding_all decide

/-- C6 (amended): for every call where label_names is supplied (with any
length n), the call raises ValueError before the legend loop (line-90
broadcast, or label.max() on an empty grid), so no legend with n entries is
ever returned. -/
theorem c6_amended (st : World) (labelId : ℕ) (ns : List String)
    (colors : Option (List Color)) (ignore_color : Color) (alpha : ℚ)
    (ax : Option ℕ) (defaultCmap : ExtF → RGBA) :
    ∃ e, vis_label st labelId (some ns) colors ignore_color alpha ax
        defaultCmap = (st, .error e) :=
  ⟨_, vis_label_eq st labelId (some ns) colors ignore_color alpha ax
      defaultCmap⟩

/-- C7: the claim says the n_class = 1 normalization is guarded so that no
division error occurs and no non-finite value reaches the color lookup,
every non-negative pixel receiving the single palette entry.  The source has
no guard: with colors = [(255,0,0)] (n_class = 1) and label [[0]] the line-86
division is 0/0 = nan, the nan reaches the colormap lookup and the line-86
pixel is the bad color (0,0,0,0), not the single palette entry (1,0,0,1);
the call then raises the line-90 broadcast ValueError, so no image is
returned at all. -/
theorem c7_single_class_unguarded :
    nClassOf none (some [(255,0,0)]) [[0, 0]] = some 1
    ∧ extDiv 0 (1 - 1) = .nan
    ∧ colorize (resolvedCmap (some [(255,0,0)]) (fun _ => (0,0,0,0)))
        (1 - 1) [[0, 0]] = [[(0,0,0,0), (0,0,0,0)]]
    ∧ resolvedCmap (some [(255,0,0)]) (fun _ => (0,0,0,0)) (.fin 0)
        = (1, 0, 0, 1)
    ∧ vis_label ⟨[⟨[]⟩], [[[0, 0]]]⟩ 0 none (some [(255,0,0)]) (0,0,0) 1
        (some 0) (fun _ => (0,0,0,0))
      = (⟨[⟨[]⟩], [[[0, 0]]]⟩, .error .valueErrorBroadcast) := by
  with_unfolding_all decide

/-- C8: two calls that agree on every argument except alpha return identical
results — alpha is accepted on line 8 and never used afterwards, so it
influences neither the line-86 pixel computation (which alpha does not even
reach) nor the outcome of the call (here: the world unchanged and the same
raised exception for both runs). -/
theorem c8_alpha_noninterference (st : World) (labelId : ℕ)
    (label_names : Option (List String)) (colors : Option (List Color))
    (ignore_color : Color) (a1 a2 : ℚ) (ax : Option ℕ)
    (defaultCmap : ExtF → RGBA) :
    vis_label st labelId label_names colors ignore_color a1 ax defaultCmap
      = vis_label st labelId label_names colors ignore_color a2 ax
          defaultCmap := rfl

/-- C9 counterexample: a call with a supplied axis does not draw into it —
the call raises the line-90 broadcast ValueError before `ax.imshow`, the
world is returned unchanged and the supplied surface still holds nothing —
refuting the claim's "otherwise it draws into and returns the supplied
surface". -/
theorem c9_counterexample :
    vis_label ⟨[⟨[]⟩], [[[0]]]⟩ 0 (some ["a", "b"]) none (0,0,0) 1 (some 0)
        (fun _ => (0,0,0,0))
      = (⟨[⟨[]⟩], [[[0]]]⟩, .error .valueErrorBroadcast)
    ∧ (((⟨[⟨[]⟩], [[[0]]]⟩ : World).axes.getD 0 ⟨[]⟩).drawn : List Image)
        = [] := by
  with_unfolding_all decide

/-- C9 (amended): every call leaves the entire world unchanged — the input
label grid (and the whole array heap) is not mutated, and no drawing surface
is created or drawn into, whether or not an axis is supplied — and returns
an error: the call raises ValueError before figure creation and before
`ax.imshow`. -/
theorem c9_amended (st : World) (labelId : ℕ)
    (label_names : Option (List String)) (colors : Option (List Color))
    (ignore_color : Color) (alpha : ℚ) (ax : Option ℕ)
    (defaultCmap : ExtF → RGBA) :
    (vis_label st labelId label_names colors ignore_color alpha ax
        defaultCmap).1 = st
    ∧ (vis_label st labelId label_names colors ignore_color alpha ax
        defaultCmap).1.arrays = st.arrays
    ∧ (vis_label st labelId label_names colors ignore_color alpha ax
        defaultCmap).1.axes = st.axes
    ∧ ∃ e, (vis_label st labelId label_names colors ignore_color alpha ax
        defaultCmap).2 = .error e := by
  rw [vis_label_eq]
  exact ⟨rfl, rfl, rfl, _, rfl⟩

/-- C10: when label_names is absent and colors is present, n_class is defined
as the length of colors (lines 66-67), so the line-71 condition is false by
construction and the InvalidColorCount situation is unreachable. -/
theorem c10_invalid_color_count_unreachable (cs : List Color) (label : Grid) :
    invalidColorCount none (some cs) label = false := by
  simp [invalidColorCount, nClassOf]

end VisLabel
